import Mathlib

/-!
# Verification of the task_management time-tracking engine

Shallow embedding of the repository's time-tracking core:

* `src/renderer/utils/timer.ts` — the `formatTime`/`parseTime` codec and the
  `PrecisionTimer` class;
* `src/renderer/utils/idleDetector.ts` — the `IdleDetector` class;
* `src/main/main.ts` — the `BackgroundProcessManager` class, plus the
  renderer-side suspend/resume handlers of `useTaskTimer.ts`.

JavaScript numbers are modelled as exact rationals (`ℚ`); IEEE-754 rounding is
not modelled — every claim below stays within ranges where the double
arithmetic of the source is exact.  JavaScript strings are modelled as
`String`/`List Char`.
-/

set_option maxRecDepth 8000

namespace TaskMgmt

instance {ε α : Type} [DecidableEq ε] [DecidableEq α] : DecidableEq (Except ε α) := fun x y =>
  match x, y with
  | .ok a, .ok b =>
    if h : a = b then .isTrue (by rw [h]) else .isFalse (by intro hc; cases hc; exact h rfl)
  | .error a, .error b =>
    if h : a = b then .isTrue (by rw [h]) else .isFalse (by intro hc; cases hc; exact h rfl)
  | .ok _, .error _ => .isFalse (by intro hc; cases hc)
  | .error _, .ok _ => .isFalse (by intro hc; cases hc)

/-- A decimal digit character, `'0'..'9'` (JS `0x30..0x39`). -/
def isDigitChar (c : Char) : Bool := 48 ≤ c.toNat && c.toNat ≤ 57

/-- JS `StrWhiteSpace` characters relevant to `Number(string)` trimming
(space, tab, line feed, carriage return, form feed, vertical tab). -/
def isWhiteChar (c : Char) : Bool :=
  c = ' ' || c = '\t' || c = '\n' || c = '\r' || c.toNat = 12 || c.toNat = 11

/-- The decimal digit character for `d < 10` (JS `String(d)` for one digit). -/
def digitChar : ℕ → Char
  | 0 => '0' | 1 => '1' | 2 => '2' | 3 => '3' | 4 => '4'
  | 5 => '5' | 6 => '6' | 7 => '7' | 8 => '8' | 9 => '9'
  | _ => '*'

/-- Numeric value of a digit character. -/
def charVal (c : Char) : ℕ := c.toNat - 48

/-- Base-10 rendering, fuel-recursive so that it reduces in the kernel;
`fuel > n` always suffices. -/
def natToCharsAux : ℕ → ℕ → List Char
  | 0, _ => []
  | fuel + 1, n =>
    if n < 10 then [digitChar n]
    else natToCharsAux fuel (n / 10) ++ [digitChar (n % 10)]

/-- Base-10 rendering of a natural number, most significant digit first
(JS `String(n)` for an integral number). -/
def natToChars (n : ℕ) : List Char := natToCharsAux (n + 1) n

/-- Value of a digit string read left to right (helper for the JS
string-to-number conversion). -/
def digitsToNat (l : List Char) : ℕ :=
  l.foldl (fun a c => 10 * a + charVal c) 0

/-- `String.prototype.split` with a single-character separator:
`"".split(c) = [""]`, and separators at the ends produce empty groups. -/
def jsSplit (sep : Char) : List Char → List (List Char)
  | [] => [[]]
  | c :: t =>
    if c = sep then [] :: jsSplit sep t
    else
      match jsSplit sep t with
      | [] => [[c]]
      | h :: r => (c :: h) :: r

/-- Trim JS whitespace from both ends of a character list. -/
def jsTrim (l : List Char) : List Char :=
  ((l.dropWhile isWhiteChar).reverse.dropWhile isWhiteChar).reverse

/-- Fractional decimal value of a digit string `fr` read after a decimal
point: `digitsToNat fr / 10 ^ |fr|`. -/
def fracVal (fr : List Char) : ℚ := (digitsToNat fr : ℚ) / 10 ^ fr.length

/-- Unsigned part of the ECMAScript `StringNumericLiteral` grammar restricted
to plain decimal literals: `digits`, `digits.digits`, `digits.`, `.digits`.
Exponent parts, `Infinity` and radix prefixes (`0x…`) are not modelled; no
claim below depends on them.  `none` models `NaN`. -/
def jsUnsignedDec (l : List Char) : Option ℚ :=
  let intPart := l.takeWhile isDigitChar
  let rest := l.dropWhile isDigitChar
  match rest with
  | [] => if intPart = [] then none else some (digitsToNat intPart)
  | c :: fr =>
    if c = '.' && fr.all isDigitChar && (intPart ≠ [] || fr ≠ []) then
      some ((digitsToNat intPart : ℚ) + fracVal fr)
    else none

/-- ECMAScript `Number(string)` (`ToNumber` on strings), on the decimal
fragment described at `jsUnsignedDec`: trims whitespace, maps the empty
string to `0`, and handles an optional leading sign.  `none` models `NaN`. -/
def jsNumber (l : List Char) : Option ℚ :=
  match jsTrim l with
  | [] => some 0
  | c :: t =>
    if c = '-' then (jsUnsignedDec t).map (fun q => -q)
    else if c = '+' then jsUnsignedDec t
    else jsUnsignedDec (c :: t)

/-- Truncation toward zero, as used by the JS `%` operator. -/
def jsTruncZ (q : ℚ) : ℤ := if 0 ≤ q then ⌊q⌋ else -⌊-q⌋

/-- The JS remainder operator `a % b` (sign of the dividend; `b = 0`, which
gives `NaN` in JS, is never reached by the embedded code). -/
def jsMod (a b : ℚ) : ℚ := a - b * (jsTruncZ (a / b) : ℚ)

/-- JS `Math.round`: round half toward positive infinity. -/
def jsRound (q : ℚ) : ℤ := ⌊q + 1/2⌋

/-- Decimal digits of the fractional part `q ∈ [0,1)`; `fuel` bounds the
number of emitted digits.  Models JS number printing for terminating
decimals, the only case exercised by the embedded code. -/
def fracChars : ℚ → ℕ → List Char
  | _, 0 => []
  | q, fuel + 1 =>
    if q = 0 then []
    else digitChar (Int.toNat ⌊q * 10⌋) :: fracChars (q * 10 - (⌊q * 10⌋ : ℚ)) fuel

/-- JS `String(x)` for a finite number with a terminating decimal expansion:
optional minus sign, integer digits, and a fractional part when nonzero. -/
def ratToChars (q : ℚ) : List Char :=
  let a := |q|
  let frac := a - (⌊a⌋ : ℚ)
  (if q < 0 then ['-'] else []) ++
    natToChars (Int.toNat ⌊a⌋) ++
    (if frac = 0 then [] else '.' :: fracChars frac 30)

/-- JS `String.prototype.padStart(2, '0')`. -/
def pad2 (l : List Char) : List Char :=
  if 2 ≤ l.length then l else List.replicate (2 - l.length) '0' ++ l

/-! ## Time codec (`timer.ts` lines 8–43) -/

/-- Character-level body of `formatTime` (timer.ts:8): hours
`Math.floor(seconds / 3600)`, minutes `Math.floor((seconds % 3600) / 60)`,
seconds `seconds % 60`, each `String(...)`-rendered and padded to 2 chars,
joined with `':'`. -/
def fmtChars (seconds : ℚ) : List Char :=
  pad2 (ratToChars ((⌊seconds / 3600⌋ : ℤ) : ℚ)) ++
    ':' :: pad2 (ratToChars ((⌊jsMod seconds 3600 / 60⌋ : ℤ) : ℚ)) ++
    ':' :: pad2 (ratToChars (jsMod seconds 60))

/-- `formatTime` (timer.ts:8–14). -/
def formatTime (seconds : ℚ) : String := ⟨fmtChars seconds⟩

/-- The four `throw new Error(...)` cases of `parseTime` (timer.ts:22–43). -/
inductive ParseError where
  /-- `'Invalid time string format'` — empty (falsy) input. -/
  | invalidStringFormat
  /-- `'Time string must be in HH:mm:ss format'` — not three `:`-groups. -/
  | invalidHHMMSS
  /-- `'Invalid time values'` — some group is not numeric (`NaN`). -/
  | invalidValues
  /-- `'Invalid time range'` — negative field, or minutes/seconds `≥ 60`. -/
  | invalidRange
deriving DecidableEq, Repr

/-- Error-kind classification from the spec's taxonomy (§4.1, §7):
`InvalidFormat` covers everything that is not the range check. -/
def ParseError.isFormatError : ParseError → Bool
  | .invalidRange => false
  | _ => true

/-- The `parts.map(Number)` / `isNaN` / range portion of `parseTime`
(timer.ts:32–42), applied to the three `:`-groups. -/
def parseFields (p1 p2 p3 : List Char) : Except ParseError ℚ :=
  match jsNumber p1, jsNumber p2, jsNumber p3 with
  | some hours, some minutes, some seconds =>
    if hours < 0 || minutes < 0 || 60 ≤ minutes || seconds < 0 || 60 ≤ seconds then
      .error .invalidRange
    else
      .ok (hours * 3600 + minutes * 60 + seconds)
  | _, _, _ => .error .invalidValues

/-- Character-level body of `parseTime` (timer.ts:22–43). -/
def parseTimeL (l : List Char) : Except ParseError ℚ :=
  if l = [] then .error .invalidStringFormat
  else
    match jsSplit ':' l with
    | [p1, p2, p3] => parseFields p1 p2 p3
    | _ => .error .invalidHHMMSS

/-- `parseTime` (timer.ts:22–43). -/
def parseTime (s : String) : Except ParseError ℚ := parseTimeL s.toList


/-! ## PrecisionTimer (`timer.ts` lines 59–523)

`performance.now()` readings are passed explicitly as a `now : ℚ` argument
(milliseconds).  Interval scheduling (`setInterval`/`setTimeout` ids) and
console logging are not part of the state; the `console.warn` calls that the
claims mention are surfaced as explicit `warned` flags. -/

/-- `PrecisionTimerState` (timer.ts:59–65). -/
structure PrecisionTimerState where
  isRunning : Bool
  startTime : Option ℚ
  pausedTime : ℚ
  lastUpdateTime : ℚ
  taskId : Option ℤ
deriving DecidableEq, Repr

/-- The mutable part of `TimerQualityMonitor` (timer.ts:70–173). -/
structure TimerQualityMonitor where
  driftHistory : List ℚ
  averageDrift : ℚ
  maxDrift : ℚ
  totalCorrections : ℕ
  qualityScore : ℚ
deriving DecidableEq, Repr

namespace TimerQualityMonitor

/-- Initial monitor state (timer.ts:71–82). -/
def init : TimerQualityMonitor :=
  { driftHistory := [], averageDrift := 0, maxDrift := 0
    totalCorrections := 0, qualityScore := 1 }

/-- `updateMetrics` (timer.ts:101–112): recompute average, maximum
(`Math.max(...)` over the non-empty, non-negative history) and
`qualityScore = min(50 / (average + 1), 1.0)`. -/
def updateMetrics (m : TimerQualityMonitor) : TimerQualityMonitor :=
  if m.driftHistory = [] then m
  else
    let sum := m.driftHistory.foldl (· + ·) 0
    let avg := sum / (m.driftHistory.length : ℚ)
    { m with
      averageDrift := avg
      maxDrift := m.driftHistory.foldl max 0
      qualityScore := min (50 / (avg + 1)) 1 }

/-- `recordDrift` (timer.ts:87–96): append `abs(drift)`, keep the last 50
entries once more than 100 accumulate, then update the metrics. -/
def recordDrift (drift : ℚ) (m : TimerQualityMonitor) : TimerQualityMonitor :=
  let hist := m.driftHistory ++ [|drift|]
  let hist := if 100 < hist.length then hist.drop (hist.length - 50) else hist
  updateMetrics { m with driftHistory := hist }

end TimerQualityMonitor

/-- The `PrecisionTimer` instance fields used by its operations
(timer.ts:179–199).  `driftThreshold = 30`, `adaptiveStep = 0.05`,
`minUpdateInterval = 50` and `maxUpdateInterval = 2000` are constants in the
source and are inlined below. -/
structure PrecisionTimer where
  state : PrecisionTimerState
  adaptiveInterval : ℚ
  consecutiveGoodUpdates : ℕ
  consecutiveErrors : ℕ
  qualityMonitor : TimerQualityMonitor
deriving DecidableEq, Repr

namespace PrecisionTimer

/-- A freshly constructed `PrecisionTimer` (timer.ts:180–203). -/
def init : PrecisionTimer :=
  { state := { isRunning := false, startTime := none, pausedTime := 0
               lastUpdateTime := 0, taskId := none }
    adaptiveInterval := 1000
    consecutiveGoodUpdates := 0
    consecutiveErrors := 0
    qualityMonitor := .init }

/-- Result of `start`: the new timer plus the `console.warn` flag. -/
structure StartOut where
  t : PrecisionTimer
  warned : Bool
deriving DecidableEq, Repr

/-- `start(taskId, initialTime)` (timer.ts:210–227): rejected with a warning
while running, otherwise replaces the whole state. -/
def start (taskId : ℤ) (initialTime : ℚ) (now : ℚ) (p : PrecisionTimer) : StartOut :=
  if p.state.isRunning then { t := p, warned := true }
  else
    { t := { p with
              state := { isRunning := true, startTime := some now
                         pausedTime := initialTime * 1000
                         lastUpdateTime := now, taskId := some taskId } }
      warned := false }

/-- `getTotalSeconds()` (timer.ts:293–302). -/
def getTotalSeconds (now : ℚ) (p : PrecisionTimer) : ℤ :=
  if !p.state.isRunning then jsRound (p.state.pausedTime / 1000)
  else
    match p.state.startTime with
    | none => jsRound (p.state.pausedTime / 1000)
    | some st => jsRound ((p.state.pausedTime + (now - st)) / 1000)

/-- Result of `pause`: returned seconds, new timer, `console.warn` flag. -/
structure PauseOut where
  seconds : ℤ
  t : PrecisionTimer
  warned : Bool
deriving DecidableEq, Repr

/-- `pause()` (timer.ts:233–245): when not running, warn and return the
current total; otherwise clear `isRunning` and return the total computed
*after* that (so the elapsed span since `startTime` is not folded in). -/
def pause (p : PrecisionTimer) : PauseOut :=
  if !p.state.isRunning then
    { seconds := jsRound (p.state.pausedTime / 1000), t := p, warned := true }
  else
    let p' := { p with state := { p.state with isRunning := false } }
    { seconds := jsRound (p'.state.pausedTime / 1000), t := p', warned := false }

/-- `resume()` (timer.ts:250–268): rejected while running or without a task
id; otherwise restarts from a fresh instant keeping `pausedTime`. -/
def resume (now : ℚ) (p : PrecisionTimer) : PrecisionTimer :=
  if p.state.isRunning then p
  else
    match p.state.taskId with
    | none => p
    | some _ =>
      { p with state := { p.state with isRunning := true, startTime := some now
                                       lastUpdateTime := now } }

/-- Result of `stop`: final seconds and the reset timer. -/
structure StopOut where
  seconds : ℤ
  t : PrecisionTimer
deriving DecidableEq, Repr

/-- `stop()` (timer.ts:274–288): reads the running total first, then resets
the whole state. -/
def stop (now : ℚ) (p : PrecisionTimer) : StopOut :=
  { seconds := getTotalSeconds now p
    t := { p with state := { isRunning := false, startTime := none, pausedTime := 0
                             lastUpdateTime := 0, taskId := none } } }

/-- A tick notification (`TimerEvent`, timer.ts:425–432). -/
structure TimerEvent where
  totalTime : ℤ
  drift : ℚ
  timestamp : ℚ
  running : Bool
  qualityScore : ℚ
deriving DecidableEq, Repr

/-- `updateTimer()` (timer.ts:378–446), the self-scheduled tick: computes
`elapsed = (now - startTime - pausedTime)/1000` and
`expectedTime = pausedTime/1000 + elapsed`, records the drift, snaps
`pausedTime` to `expectedTime * 1000` in both branches, adjusts the adaptive
interval, and emits a `TimerEvent` to listeners.  `startTime` is left
unchanged. -/
def updateTimer (now : ℚ) (p : PrecisionTimer) : PrecisionTimer × Option TimerEvent :=
  if !p.state.isRunning then (p, none)
  else
    match p.state.startTime with
    | none => (p, none)
    | some st =>
      let elapsed := (now - st - p.state.pausedTime) / 1000
      let expectedTime := p.state.pausedTime / 1000 + elapsed
      let drift := (expectedTime - p.state.pausedTime / 1000) * 1000
      let qm := p.qualityMonitor.recordDrift drift
      let p' :=
        if 30 < |drift| then
          { p with
            state := { p.state with pausedTime := expectedTime * 1000 }
            qualityMonitor := { qm with totalCorrections := qm.totalCorrections + 1 }
            consecutiveGoodUpdates := 0
            adaptiveInterval := max (p.adaptiveInterval * (1 - 1/20)) 50 }
        else
          let good := p.consecutiveGoodUpdates + 1
          if 10 ≤ good then
            { p with
              state := { p.state with pausedTime := expectedTime * 1000 }
              qualityMonitor := qm
              consecutiveGoodUpdates := 0
              adaptiveInterval := min (p.adaptiveInterval * (1 + 1/20)) 2000 }
          else
            { p with
              state := { p.state with pausedTime := expectedTime * 1000 }
              qualityMonitor := qm
              consecutiveGoodUpdates := good }
      (p', some { totalTime := jsRound (p'.state.pausedTime / 1000)
                  drift := drift
                  timestamp := now
                  running := p'.state.isRunning
                  qualityScore := p'.qualityMonitor.qualityScore })

end PrecisionTimer


/-! ## Traces of public timer operations (for the `TimerState` invariant) -/

/-- One invocation of a public `PrecisionTimer` operation, with the
environment data (`performance.now()` reading, arguments) it was called
with. -/
inductive TimerOp where
  | start (taskId : ℤ) (initialTime : ℚ) (now : ℚ)
  | pause
  | resume (now : ℚ)
  | stop (now : ℚ)
deriving DecidableEq, Repr

/-- Effect of one public operation on the timer (return values dropped). -/
def TimerOp.apply (p : PrecisionTimer) : TimerOp → PrecisionTimer
  | .start taskId initialTime now => (PrecisionTimer.start taskId initialTime now p).t
  | .pause => (PrecisionTimer.pause p).t
  | .resume now => PrecisionTimer.resume now p
  | .stop now => (PrecisionTimer.stop now p).t

/-- Ghost history flag accompanying a trace: `true` exactly while the timer
"has been started and not yet fully stopped".  An effective `start` (one
issued while not running) raises it, `stop` clears it, `pause`/`resume` and
a rejected `start` leave it. -/
def TimerOp.applyGhost (p : PrecisionTimer) (b : Bool) : TimerOp → Bool
  | .start _ _ _ => if p.state.isRunning then b else true
  | .pause => b
  | .resume _ => b
  | .stop _ => false

/-- Run a trace of public operations from a given timer and ghost flag. -/
def runTimerTrace : PrecisionTimer × Bool → List TimerOp → PrecisionTimer × Bool
  | pb, [] => pb
  | (p, b), op :: ops => runTimerTrace (op.apply p, op.applyGhost p b) ops

/-! ## IdleDetector (`idleDetector.ts`)

The ambient clock is passed in as `(nowMs, hour)`: `nowMs` models both
`Date.now()` and `new Date()` timestamps in epoch milliseconds, and `hour`
models `getHours()` (the local-time hour of day, which depends on the host
time zone and is therefore supplied by the environment). -/

/-- `ConfidenceLevel` (idleDetector.ts:21–26), as its numeric values. -/
def ConfidenceLevel.LOW : ℚ := 3/10
/-- `ConfidenceLevel.MEDIUM = 0.7`. -/
def ConfidenceLevel.MEDIUM : ℚ := 7/10
/-- `ConfidenceLevel.HIGH = 0.9`. -/
def ConfidenceLevel.HIGH : ℚ := 9/10
/-- `ConfidenceLevel.VERY_HIGH = 1.0`. -/
def ConfidenceLevel.VERY_HIGH : ℚ := 1

/-- `ActivityHistoryEntry` sources (idleDetector.ts:11–16). -/
inductive ActivitySource where
  | system
  | user
  | estimated
deriving DecidableEq, Repr

/-- `ActivityHistoryEntry` (idleDetector.ts:11–16); `tsHour` carries the
local hour of the `timestamp` `Date`. -/
structure ActivityHistoryEntry where
  timestamp : ℚ
  tsHour : ℕ
  idleTime : ℚ
  confidence : ℚ
  source : ActivitySource
deriving DecidableEq, Repr

/-- An `(isIdle, idleTime, confidence)` triple delivered to the callbacks
registered with `onIdleChange` (idleDetector.ts:628–636). -/
structure IdleNotification where
  isIdle : Bool
  idleTime : ℚ
  confidence : ℚ
deriving DecidableEq, Repr

/-- The `IdleDetector` configuration and mutable state (idleDetector.ts:65–108).
The per-2-hour-bucket activity pattern map keys `Math.floor(hour/2)`
(the string template of the source is injective in that value). -/
structure IdleDetector where
  idleThreshold : ℚ
  baseCheckInterval : ℚ
  showResumeConfirmation : Bool
  useAdaptiveInterval : Bool
  historyRetentionPeriod : ℚ
  useMultiLevelVerification : Bool
  minimumConfidence : ℚ
  isIdle : Bool
  currentCheckInterval : ℚ
  lastIdleTime : ℚ
  lastActivity : ℚ
  consecutiveErrors : ℕ
  activityHistory : List ActivityHistoryEntry
  consecutiveIdleChecks : ℕ
  lastSystemIdleTime : ℚ
  userActivityPatterns : List (ℕ × ℚ)
deriving DecidableEq, Repr

namespace IdleDetector

/-- JS `Map.get` on an association list in insertion order. -/
def mapGet (k : ℕ) : List (ℕ × ℚ) → Option ℚ
  | [] => none
  | (k', v) :: t => if k' = k then some v else mapGet k t

/-- JS `Map.set`: update in place, else append. -/
def mapSet (k : ℕ) (v : ℚ) : List (ℕ × ℚ) → List (ℕ × ℚ)
  | [] => [(k, v)]
  | (k', v') :: t => if k' = k then (k, v) :: t else (k', v') :: mapSet k v t

/-- The detector built by the module with its default option object
(idleDetector.ts:89–108 and 642–650), at clock time `nowMs`. -/
def new (nowMs : ℚ) : IdleDetector :=
  { idleThreshold := 300000
    baseCheckInterval := 1000
    showResumeConfirmation := true
    useAdaptiveInterval := true
    historyRetentionPeriod := 3600000
    useMultiLevelVerification := true
    minimumConfidence := ConfidenceLevel.MEDIUM
    isIdle := false
    currentCheckInterval := 1000
    lastIdleTime := 0
    lastActivity := nowMs
    consecutiveErrors := 0
    activityHistory := []
    consecutiveIdleChecks := 0
    lastSystemIdleTime := 0
    userActivityPatterns := [] }

/-- `verifySystemIdleTime` (idleDetector.ts:338–353). -/
def verifySystemIdleTime (idleTime : ℚ) (d : IdleDetector) : ℚ :=
  if idleTime < 0 || 86400000 < idleTime then ConfidenceLevel.LOW
  else
    let timeDiff := |idleTime - d.lastSystemIdleTime|
    if d.currentCheckInterval * 2 < timeDiff && 0 < d.lastSystemIdleTime then
      ConfidenceLevel.MEDIUM
    else ConfidenceLevel.HIGH

/-- `verifyTimeConsistency` (idleDetector.ts:358–374).  In JS the ratio is
`NaN` or `±Infinity` when `expectedIdleIncrease` is `0`, and every `<`
comparison on those is false, giving `LOW`; the `expected = 0` branch below
encodes exactly that. -/
def verifyTimeConsistency (nowMs idleTime : ℚ) (d : IdleDetector) : ℚ :=
  if d.activityHistory.length < 2 then ConfidenceLevel.MEDIUM
  else
    match d.activityHistory.getLast? with
    | none => ConfidenceLevel.MEDIUM
    | some lastEntry =>
      let timeSinceLastCheck := nowMs - lastEntry.timestamp
      let expected := min timeSinceLastCheck idleTime
      let actual := idleTime - lastEntry.idleTime
      if expected = 0 then ConfidenceLevel.LOW
      else
        let consistency := |expected - actual| / expected
        if consistency < 1/10 then ConfidenceLevel.VERY_HIGH
        else if consistency < 3/10 then ConfidenceLevel.HIGH
        else if consistency < 5/10 then ConfidenceLevel.MEDIUM
        else ConfidenceLevel.LOW

/-- `verifyActivityPattern` (idleDetector.ts:379–389).  The JS `|| idleTime`
default also replaces a stored average of `0` (falsy); `hist = 0` then makes
the deviation `NaN`, which fails every `<` and yields `LOW`. -/
def verifyActivityPattern (hour : ℕ) (idleTime : ℚ) (d : IdleDetector) : ℚ :=
  let slot := hour / 2
  let hist :=
    match mapGet slot d.userActivityPatterns with
    | none => idleTime
    | some v => if v = 0 then idleTime else v
  if hist = 0 then ConfidenceLevel.LOW
  else
    let deviation := |idleTime - hist| / hist
    if deviation < 1/5 then ConfidenceLevel.HIGH
    else if deviation < 1/2 then ConfidenceLevel.MEDIUM
    else ConfidenceLevel.LOW

/-- `verifyCheckSequence` (idleDetector.ts:394–404). -/
def verifyCheckSequence (d : IdleDetector) : ℚ :=
  if d.consecutiveIdleChecks < 3 then ConfidenceLevel.MEDIUM
  else if 5 ≤ d.consecutiveIdleChecks then ConfidenceLevel.VERY_HIGH
  else ConfidenceLevel.HIGH

/-- `performMultiLevelVerification` (idleDetector.ts:301–333): the four
signals fused with weights `[0.4, 0.3, 0.2, 0.1]`. -/
def performMultiLevelVerification (nowMs : ℚ) (hour : ℕ) (systemIdleTime : ℚ)
    (d : IdleDetector) : ℚ :=
  if !d.useMultiLevelVerification then ConfidenceLevel.HIGH
  else
    (2/5) * verifySystemIdleTime systemIdleTime d +
      (3/10) * verifyTimeConsistency nowMs systemIdleTime d +
      (1/5) * verifyActivityPattern hour systemIdleTime d +
      (1/10) * verifyCheckSequence d

/-- `updateActivityPattern` (idleDetector.ts:440–448); the `|| entry.idleTime`
default again replaces both a missing and a stored-zero (falsy) average. -/
def updateActivityPattern (e : ActivityHistoryEntry) (d : IdleDetector) : IdleDetector :=
  let slot := e.tsHour / 2
  let existing :=
    match mapGet slot d.userActivityPatterns with
    | none => e.idleTime
    | some v => if v = 0 then e.idleTime else v
  let updated := existing * (4/5) + e.idleTime * (1/5)
  { d with userActivityPatterns := mapSet slot updated d.userActivityPatterns }

/-- `addActivityHistoryEntry` (idleDetector.ts:425–435): push, update the
pattern, keep the last 500 entries once more than 1000 accumulate. -/
def addActivityHistoryEntry (e : ActivityHistoryEntry) (d : IdleDetector) : IdleDetector :=
  let d := { d with activityHistory := d.activityHistory ++ [e] }
  let d := updateActivityPattern e d
  if 1000 < d.activityHistory.length then
    { d with activityHistory := d.activityHistory.drop (d.activityHistory.length - 500) }
  else d

/-- `calculateOptimalInterval` (idleDetector.ts:566–585). -/
def calculateOptimalInterval (isIdle : Bool) (idleTime : ℚ) (d : IdleDetector) : ℚ :=
  if isIdle then
    if d.idleThreshold * 3 < idleTime then d.baseCheckInterval * 5
    else if d.idleThreshold * 2 < idleTime then d.baseCheckInterval * 3
    else d.baseCheckInterval * 2
  else
    if idleTime < d.idleThreshold * (1/2) then d.baseCheckInterval
    else d.baseCheckInterval * (3/2)

/-- `adjustCheckInterval` (idleDetector.ts:551–561). -/
def adjustCheckInterval (isIdle : Bool) (idleTime : ℚ) (d : IdleDetector) : IdleDetector :=
  if !d.useAdaptiveInterval then d
  else { d with currentCheckInterval := calculateOptimalInterval isIdle idleTime d }

/-- `cleanupOldHistory` (idleDetector.ts:461–464). -/
def cleanupOldHistory (nowMs : ℚ) (d : IdleDetector) : IdleDetector :=
  { d with activityHistory :=
      d.activityHistory.filter (fun e => nowMs - d.historyRetentionPeriod < e.timestamp) }

/-- `performIdleCheck` (idleDetector.ts:245–294), success path: the polled
`systemIdleTime` is the resolved `get-system-idle-time` IPC value.  When the
fused confidence is below `minimumConfidence` the check returns right after
clearing `consecutiveErrors` — before recording history or touching the
public flag. -/
def performIdleCheck (nowMs : ℚ) (hour : ℕ) (systemIdleTime : ℚ)
    (d : IdleDetector) : IdleDetector × List IdleNotification :=
  let confidence := performMultiLevelVerification nowMs hour systemIdleTime d
  let d := { d with consecutiveErrors := 0 }
  if confidence < d.minimumConfidence then (d, [])
  else
    let wasIdle := d.isIdle
    let isCurrentlyIdle := d.idleThreshold ≤ systemIdleTime
    let d := { d with lastIdleTime := systemIdleTime, lastSystemIdleTime := systemIdleTime }
    let d := addActivityHistoryEntry
      { timestamp := nowMs, tsHour := hour, idleTime := systemIdleTime
        confidence := confidence, source := .system } d
    let (d, notifs) :=
      if wasIdle ≠ isCurrentlyIdle then
        let d := { d with isIdle := isCurrentlyIdle }
        if isCurrentlyIdle then
          ({ d with consecutiveIdleChecks := d.consecutiveIdleChecks + 1 },
            [{ isIdle := true, idleTime := systemIdleTime, confidence := confidence }])
        else
          ({ d with consecutiveIdleChecks := 0 },
            [{ isIdle := false, idleTime := 0, confidence := confidence }])
      else if isCurrentlyIdle then
        ({ d with consecutiveIdleChecks := d.consecutiveIdleChecks + 1 }, [])
      else (d, [])
    let d := adjustCheckInterval isCurrentlyIdle systemIdleTime d
    (cleanupOldHistory nowMs d, notifs)

/-- `onUserActivity` (idleDetector.ts:492–512), the handler attached to
`mousedown`/`keydown`/`scroll`: debounced against `lastActivity`, records a
maximum-confidence `user` entry, and, when the detector is idle, runs
`handleActivityResume` — which only notifies callbacks and leaves the
`isIdle` field untouched. -/
def onUserActivity (nowMs : ℚ) (hour : ℕ) (d : IdleDetector) :
    IdleDetector × List IdleNotification :=
  if nowMs - d.lastActivity < 1000 then (d, [])
  else
    let d := { d with lastActivity := nowMs }
    let d := addActivityHistoryEntry
      { timestamp := nowMs, tsHour := hour, idleTime := 0
        confidence := ConfidenceLevel.VERY_HIGH, source := .user } d
    if d.isIdle then
      (d, [{ isIdle := false, idleTime := 0, confidence := ConfidenceLevel.VERY_HIGH }])
    else (d, [])

end IdleDetector

/-! ## BackgroundProcessManager (`main.ts` lines 50–487)

JS `Map` values are modelled as association lists in insertion order
(`Map.set` updates in place, `Map.forEach` visits in insertion order).
The suspension records stored in `suspendedTimers` are JS objects compared
by reference when used as `Map` keys; each record therefore carries an
allocation id `rid` (fresh per created record) standing for its object
identity. -/

/-- A `suspendedTimers` value `{ timestamp, reason }` (main.ts:53), plus its
object identity `rid`. -/
structure SuspendedTimerRecord where
  rid : ℕ
  timestamp : ℚ
  reason : String
deriving DecidableEq, Repr

/-- An `activeTimers` value `{ startTime, lastActivity }` (main.ts:52). -/
structure ActiveTimerRecord where
  startTime : ℚ
  lastActivity : ℚ
deriving DecidableEq, Repr

/-- A key of the `pendingResumeSuggestions` map.  The map is declared
`Map<number, string>`, but `generateResumeSuggestions` inserts under the
`SuspendedTimerRecord` object bound by `Map.forEach`; object keys are
identified by their `rid`. -/
inductive SuggestionKey where
  | num (taskId : ℤ)
  | obj (rid : ℕ)
deriving DecidableEq, Repr

/-- Payload of a `webContents.send('system-suspend', …)` (main.ts:282–285). -/
structure SuspendNotification where
  timestamp : ℚ
  suspendedTasks : List ℤ
deriving DecidableEq, Repr

/-- Payload of a `webContents.send('system-resume', …)` (main.ts:305–308). -/
structure ResumeNotification where
  timestamp : ℚ
  resumedTasks : List ℤ
deriving DecidableEq, Repr

/-- JS `Map.get` on an association list. -/
def amGet {κ α : Type} [DecidableEq κ] (k : κ) : List (κ × α) → Option α
  | [] => none
  | (k', v) :: t => if k' = k then some v else amGet k t

/-- JS `Map.set`: update in place, else append at the end. -/
def amSet {κ α : Type} [DecidableEq κ] (k : κ) (v : α) : List (κ × α) → List (κ × α)
  | [] => [(k, v)]
  | (k', v') :: t => if k' = k then (k, v) :: t else (k', v') :: amSet k v t

/-- JS `Map.delete`. -/
def amDel {κ α : Type} [DecidableEq κ] (k : κ) (l : List (κ × α)) : List (κ × α) :=
  l.filter (fun p => p.1 ≠ k)

/-- JS `Map.has`. -/
def amHas {κ α : Type} [DecidableEq κ] (k : κ) (l : List (κ × α)) : Bool :=
  (amGet k l).isSome

/-- The `BackgroundProcessManager` maps (main.ts:52–55) plus the allocation
counter for record identities. -/
structure BackgroundProcessManager where
  activeTimers : List (ℤ × ActiveTimerRecord)
  suspendedTimers : List (ℤ × SuspendedTimerRecord)
  lastActivityTimes : List (ℤ × ℚ)
  pendingResumeSuggestions : List (SuggestionKey × String)
  nextRid : ℕ
deriving DecidableEq, Repr

namespace BackgroundProcessManager

/-- A freshly constructed manager (main.ts:50–62). -/
def init : BackgroundProcessManager :=
  { activeTimers := [], suspendedTimers := [], lastActivityTimes := []
    pendingResumeSuggestions := [], nextRid := 0 }

/-- `registerTimerActivity(taskId)` (main.ts:440–448). -/
def registerTimerActivity (taskId : ℤ) (now : ℚ) (m : BackgroundProcessManager) :
    BackgroundProcessManager :=
  { m with
    activeTimers := amSet taskId { startTime := now, lastActivity := now } m.activeTimers
    lastActivityTimes := amSet taskId now m.lastActivityTimes }

/-- `unregisterTimerActivity(taskId)` (main.ts:453–459). -/
def unregisterTimerActivity (taskId : ℤ) (m : BackgroundProcessManager) :
    BackgroundProcessManager :=
  { m with
    activeTimers := amDel taskId m.activeTimers
    lastActivityTimes := amDel taskId m.lastActivityTimes
    suspendedTimers := amDel taskId m.suspendedTimers
    pendingResumeSuggestions := amDel (.num taskId) m.pendingResumeSuggestions }

/-- One iteration of the `lastActivityTimes.forEach` in `handleSystemSuspend`
(main.ts:272–278): store a fresh `'System suspend'` record under the task id
and push the id onto `suspendedList`. -/
def suspendStep (now : ℚ) (acc : BackgroundProcessManager × List ℤ) (e : ℤ × ℚ) :
    BackgroundProcessManager × List ℤ :=
  ({ acc.1 with
     suspendedTimers := amSet e.1
       { rid := acc.1.nextRid, timestamp := now, reason := "System suspend" }
       acc.1.suspendedTimers
     nextRid := acc.1.nextRid + 1 },
    acc.2 ++ [e.1])

/-- `handleSystemSuspend()` (main.ts:268–287): one record with reason
`'System suspend'` per entry of `lastActivityTimes`, then a `system-suspend`
notification when at least one task was suspended. -/
def handleSystemSuspend (now : ℚ) (m : BackgroundProcessManager) :
    BackgroundProcessManager × Option SuspendNotification :=
  let acc := m.lastActivityTimes.foldl (suspendStep now) (m, [])
  if acc.2 = [] then (acc.1, none)
  else (acc.1, some { timestamp := now, suspendedTasks := acc.2 })

/-- `handleSystemResume()` (main.ts:292–310): delete every record whose
reason is `'System suspend'`, then a `system-resume` notification listing
the affected task ids when there was at least one. -/
def handleSystemResume (now : ℚ) (m : BackgroundProcessManager) :
    BackgroundProcessManager × Option ResumeNotification :=
  let resumedList := (m.suspendedTimers.filter (fun e => e.2.reason = "System suspend")).map (·.1)
  let m' := { m with
    suspendedTimers := m.suspendedTimers.filter (fun e => e.2.reason ≠ "System suspend") }
  if resumedList = [] then (m', none)
  else (m', some { timestamp := now, resumedTasks := resumedList })

/-- `generateResumeSuggestions()` (main.ts:243–263).  `Map.forEach` passes
the map *value* as the callback's first argument, so the variable the source
names `taskId` is in fact the `SuspendedTimerRecord`; the suggestion is
looked up and inserted under that record object.  `systemIdleTimeSec` is the
`powerMonitor.getSystemIdleTime()` reading (seconds) during the scan. -/
def generateResumeSuggestions (systemIdleTimeSec : ℚ) (m : BackgroundProcessManager) :
    BackgroundProcessManager :=
  let step := fun (m : BackgroundProcessManager) (e : ℤ × SuspendedTimerRecord) =>
    let record := e.2
    if amHas (.obj record.rid) m.pendingResumeSuggestions then m
    else
      let systemIdleTime := systemIdleTimeSec * 1000
      let msg := "System activity detected after timer suspension"
      if systemIdleTime < 5 * 60 * 1000 then
        { m with pendingResumeSuggestions :=
            amSet (SuggestionKey.obj record.rid) msg m.pendingResumeSuggestions }
      else m
  m.suspendedTimers.foldl step m

end BackgroundProcessManager

/-- Renderer-side `handleSystemSuspend` of `useTaskTimer.ts` (lines 448–465):
on a `system-suspend` notification, the task component whose `task.id`
matches `globalTimer.getCurrentTaskId()` pauses the global timer (a
component is mounted for every task, so the pause fires whenever the timer
is bound to some task). -/
def applySuspendNotification (n : Option SuspendNotification) (p : PrecisionTimer) :
    PrecisionTimer :=
  match n with
  | none => p
  | some _ =>
    match p.state.taskId with
    | none => p
    | some _ => (PrecisionTimer.pause p).t

/-- Renderer-side `handleSystemResume` of `useTaskTimer.ts` (lines 467–483):
it only surfaces a message for a matching resume suggestion and never calls
`globalTimer.resume()`, so the timer is unchanged. -/
def applyResumeNotification (_n : Option ResumeNotification) (p : PrecisionTimer) :
    PrecisionTimer :=
  p

/-- "Canonical `HH:MM:SS` form with each of minutes and seconds zero-padded
to two digits" — stated from the spec's words (§3 Duration, §4.1), for
comparison against the codec's output: three `:`-groups, every group a
non-empty digit string, hours at least two digits, minutes and seconds
exactly two digits. -/
def specCanonicalHHMMSS (s : String) : Bool :=
  match jsSplit ':' s.toList with
  | [h, m, sec] =>
    decide (h ≠ []) && h.all isDigitChar && decide (2 ≤ h.length) &&
      decide (m.length = 2) && m.all isDigitChar &&
      decide (sec.length = 2) && sec.all isDigitChar
  | _ => false

/-- The shape of the record that `handleSystemSuspend` stores for a task id:
present in the suspension map, reason `'System suspend'`, stamped with the
suspend instant. -/
def goodSuspendRecord (now : ℚ) (m : BackgroundProcessManager) (id : ℤ) : Prop :=
  ∃ r : SuspendedTimerRecord, amGet id m.suspendedTimers = some r ∧
    r.reason = "System suspend" ∧ r.timestamp = now

/-! ## Codec lemmas -/

theorem charVal_digitChar {d : ℕ} (h : d < 10) : charVal (digitChar d) = d := by
  interval_cases d <;> decide

theorem isDigitChar_digitChar {d : ℕ} (h : d < 10) : isDigitChar (digitChar d) = true := by
  interval_cases d <;> decide

theorem digitChar_ne_colon {d : ℕ} (h : d < 10) : digitChar d ≠ ':' := by
  interval_cases d <;> decide

theorem digit_toNat_bounds {c : Char} (h : isDigitChar c = true) :
    48 ≤ c.toNat ∧ c.toNat ≤ 57 := by
  simpa [isDigitChar] using h

theorem isWhiteChar_eq_false_of_digit {c : Char} (h : isDigitChar c = true) :
    isWhiteChar c = false := by
  obtain ⟨h1, h2⟩ := digit_toNat_bounds h
  simp only [isWhiteChar, Bool.or_eq_false_iff, decide_eq_false_iff_not]
  refine ⟨⟨⟨⟨⟨?_, ?_⟩, ?_⟩, ?_⟩, ?_⟩, ?_⟩ <;>
    first
      | (intro hc; subst hc; revert h1 h2; decide)
      | omega

theorem digit_ne_minus {c : Char} (h : isDigitChar c = true) : c ≠ '-' := by
  obtain ⟨h1, _⟩ := digit_toNat_bounds h
  intro hc; subst hc; revert h1; decide

theorem digit_ne_plus {c : Char} (h : isDigitChar c = true) : c ≠ '+' := by
  obtain ⟨h1, _⟩ := digit_toNat_bounds h
  intro hc; subst hc; revert h1; decide

theorem digit_ne_colon {c : Char} (h : isDigitChar c = true) : c ≠ ':' := by
  obtain ⟨h1, h2⟩ := digit_toNat_bounds h
  intro hc; subst hc; revert h1 h2; decide

theorem digitsToNat_append (l : List Char) (c : Char) :
    digitsToNat (l ++ [c]) = 10 * digitsToNat l + charVal c := by
  simp [digitsToNat, List.foldl_append]

theorem natToCharsAux_spec :
    ∀ fuel n, n < fuel →
      digitsToNat (natToCharsAux fuel n) = n ∧
      natToCharsAux fuel n ≠ [] ∧
      ∀ c ∈ natToCharsAux fuel n, isDigitChar c = true := by
  intro fuel
  induction fuel with
  | zero => intro n h; omega
  | succ f ih =>
    intro n h
    rw [natToCharsAux]
    by_cases h10 : n < 10
    · rw [if_pos h10]
      refine ⟨?_, by simp, ?_⟩
      · simpa [digitsToNat] using charVal_digitChar h10
      · intro c hc
        simp only [List.mem_singleton] at hc
        subst hc; exact isDigitChar_digitChar h10
    · rw [if_neg h10]
      have hdiv : n / 10 < f := by
        have : n / 10 < n := Nat.div_lt_self (by omega) (by omega)
        omega
      obtain ⟨hv, hne, hdig⟩ := ih (n / 10) hdiv
      have hm : n % 10 < 10 := Nat.mod_lt _ (by omega)
      refine ⟨?_, by simp, ?_⟩
      · rw [digitsToNat_append, hv, charVal_digitChar hm]
        omega
      · intro c hc
        rcases List.mem_append.1 hc with hc | hc
        · exact hdig c hc
        · simp only [List.mem_singleton] at hc
          subst hc; exact isDigitChar_digitChar hm

theorem digitsToNat_natToChars (n : ℕ) : digitsToNat (natToChars n) = n :=
  (natToCharsAux_spec (n + 1) n (by omega)).1

theorem natToChars_ne_nil (n : ℕ) : natToChars n ≠ [] :=
  (natToCharsAux_spec (n + 1) n (by omega)).2.1

theorem natToChars_digits (n : ℕ) : ∀ c ∈ natToChars n, isDigitChar c = true :=
  (natToCharsAux_spec (n + 1) n (by omega)).2.2

theorem natToCharsAux_len_one {fuel v : ℕ} (hv : v < 10) (hf : 0 < fuel) :
    natToCharsAux fuel v = [digitChar v] := by
  cases fuel with
  | zero => omega
  | succ f => rw [natToCharsAux]; exact if_pos hv

theorem natToChars_length_le_two {v : ℕ} (h : v < 100) : (natToChars v).length ≤ 2 := by
  unfold natToChars
  rw [natToCharsAux]
  by_cases h10 : v < 10
  · rw [if_pos h10]; simp
  · rw [if_neg h10]
    rw [natToCharsAux_len_one (by omega) (by omega)]
    simp

theorem pad2_exists_replicate (l : List Char) :
    ∃ k, pad2 l = List.replicate k '0' ++ l := by
  unfold pad2
  split
  · exact ⟨0, by simp⟩
  · exact ⟨2 - l.length, rfl⟩

theorem pad2_length (l : List Char) : (pad2 l).length = max 2 l.length := by
  unfold pad2
  split <;> simp <;> omega

theorem pad2_ne_nil (l : List Char) : pad2 l ≠ [] := by
  intro h
  have := congrArg List.length h
  rw [pad2_length] at this
  simp at this

theorem pad2_digits {l : List Char} (h : ∀ c ∈ l, isDigitChar c = true) :
    ∀ c ∈ pad2 l, isDigitChar c = true := by
  obtain ⟨k, hk⟩ := pad2_exists_replicate l
  rw [hk]
  intro c hc
  rcases List.mem_append.1 hc with hc | hc
  · have := List.eq_of_mem_replicate hc
    subst this; decide
  · exact h c hc

theorem digitsToNat_replicate_zero (k : ℕ) (l : List Char) :
    digitsToNat (List.replicate k '0' ++ l) = digitsToNat l := by
  induction k with
  | zero => simp
  | succ m ih =>
    have : List.replicate (m + 1) '0' ++ l = '0' :: (List.replicate m '0' ++ l) := by
      simp [List.replicate_succ]
    rw [this]
    simpa [digitsToNat] using ih

theorem digitsToNat_pad2 (l : List Char) : digitsToNat (pad2 l) = digitsToNat l := by
  obtain ⟨k, hk⟩ := pad2_exists_replicate l
  rw [hk, digitsToNat_replicate_zero]

theorem dropWhile_white_of_digits {l : List Char}
    (h : ∀ c ∈ l, isDigitChar c = true) : l.dropWhile isWhiteChar = l := by
  cases l with
  | nil => rfl
  | cons c t =>
    rw [List.dropWhile_cons]
    rw [isWhiteChar_eq_false_of_digit (h c (by simp))]
    simp

theorem jsTrim_of_digits {l : List Char}
    (h : ∀ c ∈ l, isDigitChar c = true) : jsTrim l = l := by
  unfold jsTrim
  rw [dropWhile_white_of_digits h]
  rw [dropWhile_white_of_digits (fun c hc => h c (List.mem_reverse.1 hc))]
  exact List.reverse_reverse l

theorem takeWhile_digits_self {l : List Char}
    (h : ∀ c ∈ l, isDigitChar c = true) : l.takeWhile isDigitChar = l := by
  induction l with
  | nil => rfl
  | cons c t ih =>
    rw [List.takeWhile_cons, h c (by simp)]
    simp only [ite_true]
    rw [ih (fun c hc => h c (by simp [hc]))]

theorem dropWhile_digits_nil {l : List Char}
    (h : ∀ c ∈ l, isDigitChar c = true) : l.dropWhile isDigitChar = [] := by
  induction l with
  | nil => rfl
  | cons c t ih =>
    rw [List.dropWhile_cons, h c (by simp)]
    simp only [ite_true]
    exact ih (fun c hc => h c (by simp [hc]))

theorem jsUnsignedDec_digits {l : List Char} (hne : l ≠ [])
    (h : ∀ c ∈ l, isDigitChar c = true) :
    jsUnsignedDec l = some ((digitsToNat l : ℕ) : ℚ) := by
  unfold jsUnsignedDec
  rw [takeWhile_digits_self h, dropWhile_digits_nil h]
  simp [hne]

theorem jsNumber_digits {l : List Char} (hne : l ≠ [])
    (h : ∀ c ∈ l, isDigitChar c = true) :
    jsNumber l = some ((digitsToNat l : ℕ) : ℚ) := by
  have ht := jsTrim_of_digits h
  cases l with
  | nil => exact absurd rfl hne
  | cons c t =>
    have hc := h c (by simp)
    simp only [jsNumber, ht, if_neg (digit_ne_minus hc), if_neg (digit_ne_plus hc)]
    exact jsUnsignedDec_digits (by simp) h

theorem jsSplit_ne_nil (sep : Char) (l : List Char) : jsSplit sep l ≠ [] := by
  cases l with
  | nil => simp [jsSplit]
  | cons c t =>
    rw [jsSplit]
    split
    · simp
    · cases hs : jsSplit sep t <;> simp

theorem jsSplit_append_cons {sep : Char} {a b : List Char} {h1 : List Char}
    {r : List (List Char)} (ha : ∀ c ∈ a, c ≠ sep)
    (hb : jsSplit sep b = h1 :: r) :
    jsSplit sep (a ++ b) = (a ++ h1) :: r := by
  induction a with
  | nil => simpa using hb
  | cons c a ih =>
    rw [List.cons_append, jsSplit, if_neg (ha c (by simp))]
    rw [ih (fun x hx => ha x (by simp [hx]))]
    simp

theorem jsSplit_self (sep : Char) {f : List Char} (hf : ∀ c ∈ f, c ≠ sep) :
    jsSplit sep f = [f] := by
  have : jsSplit sep (f ++ ([] : List Char)) = (f ++ []) :: [] :=
    jsSplit_append_cons hf (by simp [jsSplit])
  simpa using this

theorem jsSplit_three (sep : Char) {f1 f2 f3 : List Char}
    (h1 : ∀ c ∈ f1, c ≠ sep) (h2 : ∀ c ∈ f2, c ≠ sep) (h3 : ∀ c ∈ f3, c ≠ sep) :
    jsSplit sep (f1 ++ sep :: (f2 ++ sep :: f3)) = [f1, f2, f3] := by
  have e3 : jsSplit sep (sep :: f3) = [] :: [f3] := by
    rw [jsSplit, if_pos rfl, jsSplit_self sep h3]
  have e2 : jsSplit sep (f2 ++ sep :: f3) = (f2 ++ []) :: [f3] :=
    jsSplit_append_cons h2 e3
  have e1 : jsSplit sep (sep :: (f2 ++ sep :: f3)) = [] :: ((f2 ++ []) :: [f3]) := by
    rw [jsSplit, if_pos rfl, e2]
  have := jsSplit_append_cons h1 e1
  simpa using this

theorem floor_natCast_div (n d : ℕ) (hd : 0 < d) :
    ⌊(n : ℚ) / (d : ℚ)⌋ = ((n / d : ℕ) : ℤ) := by
  have hdq : (0 : ℚ) < (d : ℚ) := by exact_mod_cast hd
  rw [Int.floor_eq_iff]
  constructor
  · rw [le_div_iff₀ hdq]
    push_cast
    exact_mod_cast Nat.div_mul_le_self n d
  · rw [div_lt_iff₀ hdq]
    have h1 : n < (n / d + 1) * d := by
      calc n = d * (n / d) + n % d := (Nat.div_add_mod n d).symm
        _ < d * (n / d) + d := by have := Nat.mod_lt n hd; omega
        _ = (n / d + 1) * d := by ring
    push_cast
    exact_mod_cast h1

theorem jsMod_natCast (n d : ℕ) (hd : 0 < d) :
    jsMod (n : ℚ) (d : ℚ) = ((n % d : ℕ) : ℚ) := by
  unfold jsMod jsTruncZ
  rw [if_pos (by positivity)]
  rw [floor_natCast_div n d hd]
  have h2 : (d : ℚ) * ((n / d : ℕ) : ℚ) + ((n % d : ℕ) : ℚ) = (n : ℚ) := by
    exact_mod_cast Nat.div_add_mod n d
  rw [Int.cast_natCast]
  linarith

theorem ratToChars_natCast (n : ℕ) : ratToChars ((n : ℕ) : ℚ) = natToChars n := by
  unfold ratToChars
  have h0 : ¬((n : ℚ) < 0) := not_lt.2 (Nat.cast_nonneg n)
  have habs : |(n : ℚ)| = (n : ℚ) := abs_of_nonneg (Nat.cast_nonneg n)
  simp only [habs, Int.floor_natCast, Int.toNat_natCast, if_neg h0, sub_self, ite_true]
  simp

theorem fmtChars_natCast (n : ℕ) :
    fmtChars (n : ℚ) =
      pad2 (natToChars (n / 3600)) ++
        ':' :: pad2 (natToChars (n % 3600 / 60)) ++ ':' :: pad2 (natToChars (n % 60)) := by
  unfold fmtChars
  rw [show (3600 : ℚ) = ((3600 : ℕ) : ℚ) from by norm_num,
      show (60 : ℚ) = ((60 : ℕ) : ℚ) from by norm_num]
  rw [floor_natCast_div n 3600 (by omega), jsMod_natCast n 3600 (by omega),
      jsMod_natCast n 60 (by omega), floor_natCast_div (n % 3600) 60 (by omega)]
  rw [Int.cast_natCast, Int.cast_natCast]
  rw [ratToChars_natCast, ratToChars_natCast, ratToChars_natCast]

theorem fmt_fields_min_lt (n : ℕ) : n % 3600 / 60 < 60 :=
  Nat.div_lt_of_lt_mul (Nat.mod_lt n (by omega))

theorem fmt_fields_sec_lt (n : ℕ) : n % 60 < 60 := Nat.mod_lt n (by omega)

theorem jsSplit_fmtChars (n : ℕ) :
    jsSplit ':' (fmtChars (n : ℚ)) =
      [pad2 (natToChars (n / 3600)), pad2 (natToChars (n % 3600 / 60)),
        pad2 (natToChars (n % 60))] := by
  rw [fmtChars_natCast]
  have hc1 : ∀ c ∈ pad2 (natToChars (n / 3600)), c ≠ ':' := fun c hc =>
    digit_ne_colon (pad2_digits (natToChars_digits (n / 3600)) c hc)
  have hc2 : ∀ c ∈ pad2 (natToChars (n % 3600 / 60)), c ≠ ':' := fun c hc =>
    digit_ne_colon (pad2_digits (natToChars_digits (n % 3600 / 60)) c hc)
  have hc3 : ∀ c ∈ pad2 (natToChars (n % 60)), c ≠ ':' := fun c hc =>
    digit_ne_colon (pad2_digits (natToChars_digits (n % 60)) c hc)
  have := jsSplit_three ':' hc1 hc2 hc3
  simpa [List.append_assoc] using this

theorem parseTimeL_split_three {l p1 p2 p3 : List Char} (hne : l ≠ [])
    (hs : jsSplit ':' l = [p1, p2, p3]) : parseTimeL l = parseFields p1 p2 p3 := by
  unfold parseTimeL
  rw [if_neg hne, hs]

theorem parseTimeL_fmtChars (n : ℕ) :
    parseTimeL (fmtChars (n : ℚ)) = .ok ((n : ℚ)) := by
  have hne : fmtChars (n : ℚ) ≠ [] := by
    rw [fmtChars_natCast]
    simp
  rw [parseTimeL_split_three hne (jsSplit_fmtChars n)]
  unfold parseFields
  rw [jsNumber_digits (pad2_ne_nil _) (pad2_digits (natToChars_digits (n / 3600))),
      jsNumber_digits (pad2_ne_nil _) (pad2_digits (natToChars_digits (n % 3600 / 60))),
      jsNumber_digits (pad2_ne_nil _) (pad2_digits (natToChars_digits (n % 60)))]
  rw [digitsToNat_pad2, digitsToNat_pad2, digitsToNat_pad2,
      digitsToNat_natToChars, digitsToNat_natToChars, digitsToNat_natToChars]
  show (if ((n / 3600 : ℕ) : ℚ) < 0 || ((n % 3600 / 60 : ℕ) : ℚ) < 0 ||
          (60 : ℚ) ≤ ((n % 3600 / 60 : ℕ) : ℚ) || ((n % 60 : ℕ) : ℚ) < 0 ||
          (60 : ℚ) ≤ ((n % 60 : ℕ) : ℚ) then
        Except.error ParseError.invalidRange
      else
        Except.ok (((n / 3600 : ℕ) : ℚ) * 3600 + ((n % 3600 / 60 : ℕ) : ℚ) * 60 +
          ((n % 60 : ℕ) : ℚ))) = Except.ok ((n : ℚ))
  have hm : ¬((60 : ℚ) ≤ ((n % 3600 / 60 : ℕ) : ℚ)) := by
    exact_mod_cast not_le.2 (fmt_fields_min_lt n)
  have hs : ¬((60 : ℚ) ≤ ((n % 60 : ℕ) : ℚ)) := by
    exact_mod_cast not_le.2 (fmt_fields_sec_lt n)
  rw [if_neg]
  · congr 1
    have hn : n / 3600 * 3600 + n % 3600 / 60 * 60 + n % 60 = n := by omega
    exact_mod_cast hn
  · simp only [Bool.or_eq_true, decide_eq_true_eq, not_or, not_lt]
    refine ⟨⟨⟨⟨Nat.cast_nonneg _, Nat.cast_nonneg _⟩, hm⟩, Nat.cast_nonneg _⟩, hs⟩

theorem parseTime_formatTime (n : ℕ) : parseTime (formatTime (n : ℚ)) = .ok ((n : ℚ)) :=
  parseTimeL_fmtChars n

theorem specCanonical_formatTime_nat (n : ℕ) :
    specCanonicalHHMMSS (formatTime (n : ℚ)) = true := by
  unfold specCanonicalHHMMSS
  rw [show (formatTime (n : ℚ)).toList = fmtChars (n : ℚ) from rfl]
  rw [jsSplit_fmtChars n]
  simp only [Bool.and_eq_true, decide_eq_true_eq, List.all_eq_true]
  refine ⟨⟨⟨⟨⟨⟨pad2_ne_nil _, ?_⟩, ?_⟩, ?_⟩, ?_⟩, ?_⟩, ?_⟩
  · exact pad2_digits (natToChars_digits _)
  · rw [pad2_length]; omega
  · rw [pad2_length]
    have := natToChars_length_le_two (v := n % 3600 / 60) (by have := fmt_fields_min_lt n; omega)
    omega
  · exact pad2_digits (natToChars_digits _)
  · rw [pad2_length]
    have := natToChars_length_le_two (v := n % 60) (by have := fmt_fields_sec_lt n; omega)
    omega
  · exact pad2_digits (natToChars_digits _)

/-! ## Claims about the time codec -/

/-- **C2** (amended).  For every non-negative integer `n`,
`parseTime (formatTime n) = n`; and for every text accepted by `parseTime`
whose parsed value is a whole number of seconds, `formatTime` of that value
is the canonical form with minutes and seconds zero-padded to two digits.
(The unamended claim — canonical output for *every* accepted text — fails on
fractional inputs such as `"0:0:1.5"`, see the counterexample.) -/
theorem claim_C2_codec_roundtrip :
    (∀ n : ℕ, parseTime (formatTime (n : ℚ)) = .ok ((n : ℚ))) ∧
    (∀ (t : String) (q : ℚ), parseTime t = .ok q → (∃ n : ℕ, q = (n : ℚ)) →
      specCanonicalHHMMSS (formatTime q) = true) := by
  refine ⟨parseTime_formatTime, ?_⟩
  rintro t q _ ⟨n, rfl⟩
  exact specCanonical_formatTime_nat n

/-- Witness for **C2**: the round-trip at `n = 3723`, and canonical
re-formatting of the accepted single-digit text `"1:2:3"`. -/
theorem claim_C2_codec_roundtrip_witness :
    parseTime (formatTime ((3723 : ℕ) : ℚ)) = .ok (((3723 : ℕ)) : ℚ) ∧
    specCanonicalHHMMSS (formatTime ((3723 : ℕ) : ℚ)) = true :=
  ⟨claim_C2_codec_roundtrip.1 3723,
    claim_C2_codec_roundtrip.2 "1:2:3" ((3723 : ℕ) : ℚ)
      (by with_unfolding_all rfl) ⟨3723, rfl⟩⟩

/-- Counterexample to **C2** as stated: `parseTime` accepts `"0:0:1.5"`
(JS `Number("1.5")` is not `NaN` and `1.5 < 60`), and re-formatting the
parsed value `3/2` prints `"00:00:1.5"`, whose seconds group is not a
two-digit zero-padded field. -/
theorem claim_C2_codec_roundtrip_counterexample :
    parseTime "0:0:1.5" = .ok (3/2 : ℚ) ∧
    formatTime (3/2 : ℚ) = "00:00:1.5" ∧
    specCanonicalHHMMSS "00:00:1.5" = false :=
  ⟨by with_unfolding_all rfl, by with_unfolding_all rfl, by with_unfolding_all rfl⟩

/-- **C8**.  `parseTime` fails on `""`, `"invalid"`, `"1:2"`, `"aa:bb:cc"`
with format-kind errors (not exactly three colon-separated numeric groups),
fails on `"01:60:00"` with the range-kind error, and accepts single-digit
fields: `parseTime "1:2:3" = 3723 = parseTime "01:02:03"`. -/
theorem claim_C8_parse_error_cases :
    parseTime "" = .error .invalidStringFormat ∧
    ParseError.isFormatError .invalidStringFormat = true ∧
    parseTime "invalid" = .error .invalidHHMMSS ∧
    parseTime "1:2" = .error .invalidHHMMSS ∧
    ParseError.isFormatError .invalidHHMMSS = true ∧
    parseTime "aa:bb:cc" = .error .invalidValues ∧
    ParseError.isFormatError .invalidValues = true ∧
    parseTime "01:60:00" = .error .invalidRange ∧
    ParseError.isFormatError .invalidRange = false ∧
    parseTime "1:2:3" = .ok 3723 ∧
    parseTime "01:02:03" = .ok 3723 :=
  ⟨by with_unfolding_all rfl, rfl, by with_unfolding_all rfl, by with_unfolding_all rfl,
    rfl, by with_unfolding_all rfl, rfl, by with_unfolding_all rfl, rfl,
    by with_unfolding_all rfl, by with_unfolding_all rfl⟩

/-- **C10**.  Empty colon-separated fields are accepted and read as `0`
(JS `Number("") = 0`): `parseTime "::" = 0` and `parseTime "1::" = 3600`. -/
theorem claim_C10_empty_fields_parse :
    parseTime "::" = .ok 0 ∧ parseTime "1::" = .ok 3600 :=
  ⟨by with_unfolding_all rfl, by with_unfolding_all rfl⟩

/-! ## Claims about the precision timer -/

/-- **C1** (code bug).  After `start(1, 120)` at instant `0`, reading the
total at instant `45000` gives the documented `165`; but if one `updateTimer`
tick has fired at `45000`, the drift-"correction" has rewritten `pausedTime`
to `45000` (discarding the 120 s initial credit) while leaving `startTime`
at `0`, so the very same read returns `90` — the elapsed span is counted
twice and the additive formula `round((120*1000 + (now - start))/1000) = 165`
of the claim is broken by the tick. -/
theorem claim_C1_tick_breaks_additive_total :
    PrecisionTimer.getTotalSeconds 45000 (PrecisionTimer.start 1 120 0 .init).t = 165 ∧
    (PrecisionTimer.updateTimer 45000
        (PrecisionTimer.start 1 120 0 .init).t).1.state.pausedTime = 45000 ∧
    PrecisionTimer.getTotalSeconds 45000
      (PrecisionTimer.updateTimer 45000 (PrecisionTimer.start 1 120 0 .init).t).1 = 90 ∧
    jsRound ((120 * 1000 + (45000 - 0)) / 1000 : ℚ) = 165 :=
  ⟨by with_unfolding_all rfl, by with_unfolding_all rfl,
    by with_unfolding_all rfl, by with_unfolding_all rfl⟩

/-- **C7**.  `start` while running is a no-op that only warns; `pause` while
not running warns and returns `round(pausedTime/1000)` with the state
unchanged; and two consecutive `pause` calls return the same value (the
first one does not fold the running span into `pausedTime`, so nothing can
be double-counted). -/
theorem claim_C7_start_pause_guards (p : PrecisionTimer) (taskId : ℤ)
    (initialTime now : ℚ) :
    (p.state.isRunning = true →
      PrecisionTimer.start taskId initialTime now p = ⟨p, true⟩) ∧
    (p.state.isRunning = false →
      PrecisionTimer.pause p = ⟨jsRound (p.state.pausedTime / 1000), p, true⟩) ∧
    (PrecisionTimer.pause (PrecisionTimer.pause p).t).seconds =
      (PrecisionTimer.pause p).seconds := by
  refine ⟨fun h => ?_, fun h => ?_, ?_⟩
  · unfold PrecisionTimer.start
    rw [if_pos h]
  · unfold PrecisionTimer.pause
    rw [h]
    simp
  · by_cases hr : p.state.isRunning <;> simp [PrecisionTimer.pause, hr]

/-- Witness for **C7**: a running timer rejects `start(2, 0)`, a fresh timer
warns on `pause`, and double `pause` after `start(1, 60)` is stable. -/
theorem claim_C7_start_pause_guards_witness :
    PrecisionTimer.start 2 0 1000 (PrecisionTimer.start 1 0 0 .init).t =
      ⟨(PrecisionTimer.start 1 0 0 .init).t, true⟩ ∧
    PrecisionTimer.pause .init =
      ⟨jsRound (PrecisionTimer.init.state.pausedTime / 1000), .init, true⟩ ∧
    (PrecisionTimer.pause (PrecisionTimer.pause (PrecisionTimer.start 1 60 0 .init).t).t).seconds =
      (PrecisionTimer.pause (PrecisionTimer.start 1 60 0 .init).t).seconds :=
  ⟨(claim_C7_start_pause_guards (PrecisionTimer.start 1 0 0 .init).t 2 0 1000).1
      (by with_unfolding_all rfl),
    (claim_C7_start_pause_guards .init 1 0 0).2.1 (by with_unfolding_all rfl),
    (claim_C7_start_pause_guards (PrecisionTimer.start 1 60 0 .init).t 1 0 0).2.2⟩

theorem runTimerTrace_inv (ops : List TimerOp) :
    ∀ pb : PrecisionTimer × Bool,
      (pb.1.state.taskId = none ↔ pb.2 = false) →
      (pb.1.state.isRunning = true → pb.1.state.startTime ≠ none) →
      ((runTimerTrace pb ops).1.state.taskId = none ↔ (runTimerTrace pb ops).2 = false) ∧
        ((runTimerTrace pb ops).1.state.isRunning = true →
          (runTimerTrace pb ops).1.state.startTime ≠ none) := by
  induction ops with
  | nil => exact fun pb h1 h2 => ⟨h1, h2⟩
  | cons op ops ih =>
    rintro ⟨p, b⟩ h1 h2
    rw [runTimerTrace]
    apply ih
    · cases op with
      | start taskId initialTime now =>
        by_cases hr : p.state.isRunning
        · simp [TimerOp.apply, TimerOp.applyGhost, PrecisionTimer.start, hr, h1]
        · simp [TimerOp.apply, TimerOp.applyGhost, PrecisionTimer.start, hr]
      | pause =>
        by_cases hr : p.state.isRunning
        · simp [TimerOp.apply, TimerOp.applyGhost, PrecisionTimer.pause, hr, h1]
        · simp [TimerOp.apply, TimerOp.applyGhost, PrecisionTimer.pause, hr, h1]
      | resume now =>
        by_cases hr : p.state.isRunning
        · simp [TimerOp.apply, TimerOp.applyGhost, PrecisionTimer.resume, hr, h1]
        · cases ht : p.state.taskId with
          | none =>
            have hb : b = false := h1.mp ht
            simp [TimerOp.apply, TimerOp.applyGhost, PrecisionTimer.resume, hr, ht, hb]
          | some tid =>
            have hb : b = true := by
              cases hb' : b with
              | false => exact absurd (h1.mpr hb') (by simp [ht])
              | true => rfl
            simp [TimerOp.apply, TimerOp.applyGhost, PrecisionTimer.resume, hr, ht, hb]
      | stop now =>
        simp [TimerOp.apply, TimerOp.applyGhost, PrecisionTimer.stop]
    · cases op with
      | start taskId initialTime now =>
        by_cases hr : p.state.isRunning
        · simp [TimerOp.apply, PrecisionTimer.start, hr, h2]
        · simp [TimerOp.apply, PrecisionTimer.start, hr]
      | pause =>
        by_cases hr : p.state.isRunning
        · simp [TimerOp.apply, PrecisionTimer.pause, hr]
        · simp [TimerOp.apply, PrecisionTimer.pause, hr, h2]
      | resume now =>
        by_cases hr : p.state.isRunning
        · simp [TimerOp.apply, PrecisionTimer.resume, hr, h2]
        · cases ht : p.state.taskId with
          | none => simp [TimerOp.apply, PrecisionTimer.resume, hr, ht, h2]
          | some tid => simp [TimerOp.apply, PrecisionTimer.resume, hr, ht]
      | stop now =>
        simp [TimerOp.apply, PrecisionTimer.stop]

/-- **C9**.  Along every trace of public operations from a fresh timer,
`taskId = none` exactly when the timer has never been (effectively) started
or has been fully stopped since (the ghost flag of `runTimerTrace`), and
`isRunning = true` implies `startTime ≠ none`; moreover `pause` always keeps
`taskId`. -/
theorem claim_C9_timer_state_invariant (ops : List TimerOp) :
    ((runTimerTrace (PrecisionTimer.init, false) ops).1.state.taskId = none ↔
      (runTimerTrace (PrecisionTimer.init, false) ops).2 = false) ∧
    ((runTimerTrace (PrecisionTimer.init, false) ops).1.state.isRunning = true →
      (runTimerTrace (PrecisionTimer.init, false) ops).1.state.startTime ≠ none) ∧
    (∀ p : PrecisionTimer, (PrecisionTimer.pause p).t.state.taskId = p.state.taskId) := by
  obtain ⟨h1, h2⟩ := runTimerTrace_inv ops (PrecisionTimer.init, false)
    (by simp [PrecisionTimer.init]) (by simp [PrecisionTimer.init])
  refine ⟨h1, h2, fun p => ?_⟩
  unfold PrecisionTimer.pause
  by_cases hr : p.state.isRunning <;> simp [hr]

/-- Witness for **C9**: the invariant read off after `[start(1,60,0), pause]`
and the implication discharged after `[start(1,60,0)]`. -/
theorem claim_C9_timer_state_invariant_witness :
    ((runTimerTrace (PrecisionTimer.init, false) [TimerOp.start 1 60 0]).1.state.taskId = none ↔
      (runTimerTrace (PrecisionTimer.init, false) [TimerOp.start 1 60 0]).2 = false) ∧
    (runTimerTrace (PrecisionTimer.init, false) [TimerOp.start 1 60 0]).1.state.startTime ≠ none :=
  ⟨(claim_C9_timer_state_invariant [TimerOp.start 1 60 0]).1,
    (claim_C9_timer_state_invariant [TimerOp.start 1 60 0]).2.1 (by with_unfolding_all rfl)⟩

/-! ## Claims about the idle detector -/

theorem addActivityHistoryEntry_getLast (e : ActivityHistoryEntry) (d : IdleDetector) :
    (IdleDetector.addActivityHistoryEntry e d).activityHistory.getLast? = some e := by
  unfold IdleDetector.addActivityHistoryEntry IdleDetector.updateActivityPattern
  set l := d.activityHistory ++ [e] with hl
  by_cases hlen : 1000 < l.length
  · have hk : l.length - 500 ≤ d.activityHistory.length := by
      have : l.length = d.activityHistory.length + 1 := by simp [hl]
      omega
    simp only [hlen, if_pos, ite_true]
    rw [hl, List.drop_append_of_le_length hk]
    exact List.getLast?_concat _
  · simp only [hlen, ite_false]
    exact List.getLast?_concat _

theorem addActivityHistoryEntry_fields (e : ActivityHistoryEntry) (d : IdleDetector) :
    (IdleDetector.addActivityHistoryEntry e d).isIdle = d.isIdle ∧
    (IdleDetector.addActivityHistoryEntry e d).lastActivity = d.lastActivity := by
  unfold IdleDetector.addActivityHistoryEntry IdleDetector.updateActivityPattern
  dsimp only
  refine ⟨?_, ?_⟩ <;> (split <;> rfl)

/-- **C3** (amended).  A poll whose fused multi-level confidence is below the
configured floor leaves the detector unchanged apart from clearing the
consecutive-error counter: the public idle flag is untouched, *no* entry is
appended to the activity history (the check returns before recording), and
no callback notification is emitted. -/
theorem claim_C3_low_confidence_skips_poll (nowMs : ℚ) (hour : ℕ)
    (systemIdleTime : ℚ) (d : IdleDetector)
    (h : IdleDetector.performMultiLevelVerification nowMs hour systemIdleTime d <
      d.minimumConfidence) :
    IdleDetector.performIdleCheck nowMs hour systemIdleTime d =
      ({ d with consecutiveErrors := 0 }, []) ∧
    (IdleDetector.performIdleCheck nowMs hour systemIdleTime d).1.isIdle = d.isIdle ∧
    (IdleDetector.performIdleCheck nowMs hour systemIdleTime d).1.activityHistory =
      d.activityHistory ∧
    (IdleDetector.performIdleCheck nowMs hour systemIdleTime d).2 = [] := by
  have key : IdleDetector.performIdleCheck nowMs hour systemIdleTime d =
      ({ d with consecutiveErrors := 0 }, []) := by
    unfold IdleDetector.performIdleCheck
    rw [if_pos h]
  exact ⟨key, by rw [key], by rw [key], by rw [key]⟩

/-- Witness for **C3**: a detector whose learned pattern for the midnight
bucket is 1000 ms, polled with a 25-hour idle duration (above the 5-minute
threshold): the fused confidence is `0.46 < 0.7`, and the poll changes
nothing and emits nothing. -/
theorem claim_C3_low_confidence_skips_poll_witness :
    IdleDetector.performMultiLevelVerification 0 0 90000000
        { IdleDetector.new 0 with userActivityPatterns := [(0, 1000)] } <
      ({ IdleDetector.new 0 with userActivityPatterns := [(0, 1000)] }).minimumConfidence ∧
    IdleDetector.performIdleCheck 0 0 90000000
        { IdleDetector.new 0 with userActivityPatterns := [(0, 1000)] } =
      ({ { IdleDetector.new 0 with userActivityPatterns := [(0, 1000)] } with
          consecutiveErrors := 0 }, []) :=
  ⟨by with_unfolding_all decide,
    (claim_C3_low_confidence_skips_poll 0 0 90000000
      { IdleDetector.new 0 with userActivityPatterns := [(0, 1000)] }
      (by with_unfolding_all decide)).1⟩

/-- Counterexample to **C3** as stated: in the same sub-floor poll the claim
asserts the sample is still appended to the activity history, but the
history stays empty (and the threshold-exceeding raw idle duration flips
nothing). -/
theorem claim_C3_low_confidence_skips_poll_counterexample :
    (IdleDetector.performIdleCheck 0 0 90000000
        { IdleDetector.new 0 with userActivityPatterns := [(0, 1000)] }).1.activityHistory =
      [] ∧
    300000 ≤ (90000000 : ℚ) ∧
    (IdleDetector.performIdleCheck 0 0 90000000
        { IdleDetector.new 0 with userActivityPatterns := [(0, 1000)] }).1.isIdle = false :=
  ⟨by with_unfolding_all rfl, by with_unfolding_all decide, by with_unfolding_all rfl⟩

/-- **C4** (amended).  A direct user-input event at least 1 s after the last
recorded activity updates `lastActivity`, appends a history entry with
confidence 1.0 and source `user`, and — when the detector is idle — emits an
active notification at confidence 1.0 to the callbacks; the stored `isIdle`
flag itself is *not* changed (it is only flipped by polls).  An event within
1 s of the previous one is ignored entirely. -/
theorem claim_C4_user_activity_event (nowMs : ℚ) (hour : ℕ) (d : IdleDetector) :
    (1000 ≤ nowMs - d.lastActivity →
      (IdleDetector.onUserActivity nowMs hour d).1.lastActivity = nowMs ∧
      (IdleDetector.onUserActivity nowMs hour d).1.activityHistory.getLast? =
        some { timestamp := nowMs, tsHour := hour, idleTime := 0
               confidence := ConfidenceLevel.VERY_HIGH, source := .user } ∧
      (IdleDetector.onUserActivity nowMs hour d).1.isIdle = d.isIdle ∧
      (d.isIdle = true →
        (IdleDetector.onUserActivity nowMs hour d).2 =
          [{ isIdle := false, idleTime := 0, confidence := ConfidenceLevel.VERY_HIGH }]) ∧
      (d.isIdle = false → (IdleDetector.onUserActivity nowMs hour d).2 = [])) ∧
    (nowMs - d.lastActivity < 1000 →
      IdleDetector.onUserActivity nowMs hour d = (d, [])) := by
  constructor
  · intro h
    have hno : ¬(nowMs - d.lastActivity < 1000) := not_lt.2 h
    unfold IdleDetector.onUserActivity
    rw [if_neg hno]
    dsimp only
    set e : ActivityHistoryEntry :=
      { timestamp := nowMs, tsHour := hour, idleTime := 0
        confidence := ConfidenceLevel.VERY_HIGH, source := .user } with he
    set dA := IdleDetector.addActivityHistoryEntry e { d with lastActivity := nowMs } with hdA
    have hA1 : dA.isIdle = d.isIdle := (addActivityHistoryEntry_fields e _).1
    have hA2 : dA.lastActivity = nowMs := (addActivityHistoryEntry_fields e _).2
    have hA3 : dA.activityHistory.getLast? = some e := addActivityHistoryEntry_getLast e _
    by_cases hi : d.isIdle
    · rw [if_pos (hA1.trans hi)]
      exact ⟨hA2, hA3, hA1, fun _ => rfl, fun hc => by simp [hc] at hi⟩
    · rw [if_neg (by rw [hA1]; exact hi)]
      exact ⟨hA2, hA3, hA1, fun hc => absurd hc hi, fun _ => rfl⟩
  · intro h
    unfold IdleDetector.onUserActivity
    rw [if_pos h]

/-- Witness for **C4**: a user event at `t = 5000` on a fresh detector
(last activity `0`) records the maximal-confidence entry, and an event at
`t = 100` is debounced away. -/
theorem claim_C4_user_activity_event_witness :
    ((IdleDetector.onUserActivity 5000 0 (IdleDetector.new 0)).1.lastActivity = 5000 ∧
      (IdleDetector.onUserActivity 5000 0 (IdleDetector.new 0)).1.activityHistory.getLast? =
        some { timestamp := 5000, tsHour := 0, idleTime := 0
               confidence := ConfidenceLevel.VERY_HIGH, source := .user }) ∧
    IdleDetector.onUserActivity 100 0 (IdleDetector.new 0) = (IdleDetector.new 0, []) :=
  ⟨⟨((claim_C4_user_activity_event 5000 0 (IdleDetector.new 0)).1
        (by with_unfolding_all decide)).1,
    ((claim_C4_user_activity_event 5000 0 (IdleDetector.new 0)).1
        (by with_unfolding_all decide)).2.1⟩,
    (claim_C4_user_activity_event 100 0 (IdleDetector.new 0)).2
      (by with_unfolding_all decide)⟩

/-- Counterexample to **C4** as stated: with the detector idle, a
non-debounced user event does notify the callbacks of an active resume at
confidence 1.0, but the public idle flag read back from the detector is
still `true` — the event does not force the state to active. -/
theorem claim_C4_user_activity_event_counterexample :
    (IdleDetector.onUserActivity 5000 0 { IdleDetector.new 0 with isIdle := true }).1.isIdle
      = true ∧
    (IdleDetector.onUserActivity 5000 0 { IdleDetector.new 0 with isIdle := true }).2 =
      [{ isIdle := false, idleTime := 0, confidence := 1 }] :=
  ⟨by with_unfolding_all rfl, by with_unfolding_all rfl⟩

/-! ## Claims about the background-process coordinator -/

theorem amGet_amSet_self {κ α : Type} [DecidableEq κ] (k : κ) (v : α) (l : List (κ × α)) :
    amGet k (amSet k v l) = some v := by
  induction l with
  | nil => simp [amGet, amSet]
  | cons e t ih =>
    by_cases hk : e.1 = k
    · simp [amSet, amGet, hk]
    · simp only [amSet, hk, ite_false]
      simpa [amGet, hk] using ih

theorem amGet_amSet_ne {κ α : Type} [DecidableEq κ] {k k' : κ} (h : k' ≠ k) (v : α)
    (l : List (κ × α)) : amGet k' (amSet k v l) = amGet k' l := by
  induction l with
  | nil => simp [amGet, amSet, Ne.symm h]
  | cons e t ih =>
    by_cases hk : e.1 = k
    · subst hk
      simp [amSet, amGet, Ne.symm h]
    · by_cases hk' : e.1 = k'
      · simp [amSet, amGet, hk, hk', h]
      · simp only [amSet, hk, ite_false]
        simpa [amGet, hk'] using ih

theorem amSet_keys {κ α : Type} [DecidableEq κ] (k : κ) (v : α) (l : List (κ × α)) :
    (amSet k v l).map Prod.fst =
      if k ∈ l.map Prod.fst then l.map Prod.fst else l.map Prod.fst ++ [k] := by
  induction l with
  | nil => simp [amSet]
  | cons e t ih =>
    by_cases hk : e.1 = k
    · simp [amSet, hk]
    · simp only [amSet, hk, ite_false, List.map_cons, ih]
      by_cases hmem : k ∈ t.map Prod.fst <;> simp [hmem, Ne.symm hk]

theorem amSet_keys_nodup {κ α : Type} [DecidableEq κ] (k : κ) (v : α) {l : List (κ × α)}
    (h : (l.map Prod.fst).Nodup) : ((amSet k v l).map Prod.fst).Nodup := by
  rw [amSet_keys]
  by_cases hmem : k ∈ l.map Prod.fst
  · rw [if_pos hmem]; exact h
  · rw [if_neg hmem, List.nodup_append]
    refine ⟨h, List.nodup_singleton _, ?_⟩
    intro a ha hb
    simp only [List.mem_singleton] at hb
    subst hb
    exact hmem ha

theorem amGet_mem {κ α : Type} [DecidableEq κ] {k : κ} {v : α} {l : List (κ × α)}
    (h : amGet k l = some v) : (k, v) ∈ l := by
  induction l with
  | nil => simp [amGet] at h
  | cons e t ih =>
    obtain ⟨e1, e2⟩ := e
    by_cases hk : e1 = k
    · simp only [amGet, hk, ite_true, Option.some_inj] at h
      subst hk
      subst h
      exact List.mem_cons_self _ _
    · simp only [amGet, hk, ite_false] at h
      exact List.mem_cons_of_mem _ (ih h)

open BackgroundProcessManager

theorem suspendStep_good {now : ℚ} {acc : BackgroundProcessManager × List ℤ}
    {id : ℤ} (e : ℤ × ℚ) (h : goodSuspendRecord now acc.1 id) :
    goodSuspendRecord now (suspendStep now acc e).1 id := by
  obtain ⟨r, hr, hreason, hts⟩ := h
  by_cases hk : id = e.1
  · subst hk
    exact ⟨_, amGet_amSet_self _ _ _, rfl, rfl⟩
  · exact ⟨r, by rw [show (suspendStep now acc e).1.suspendedTimers =
      amSet e.1 _ acc.1.suspendedTimers from rfl, amGet_amSet_ne hk _ _]; exact hr,
      hreason, hts⟩

theorem suspendStep_sets (now : ℚ) (acc : BackgroundProcessManager × List ℤ)
    (e : ℤ × ℚ) : goodSuspendRecord now (suspendStep now acc e).1 e.1 :=
  ⟨_, amGet_amSet_self _ _ _, rfl, rfl⟩

theorem suspendFold_good (now : ℚ) (L : List (ℤ × ℚ)) :
    ∀ acc : BackgroundProcessManager × List ℤ,
      (∀ id, goodSuspendRecord now acc.1 id →
        goodSuspendRecord now (L.foldl (suspendStep now) acc).1 id) ∧
      (∀ id ∈ L.map Prod.fst,
        goodSuspendRecord now (L.foldl (suspendStep now) acc).1 id) := by
  induction L with
  | nil => exact fun acc => ⟨fun id h => h, by simp⟩
  | cons e t ih =>
    intro acc
    rw [List.foldl_cons]
    refine ⟨fun id h => (ih _).1 id (suspendStep_good e h), ?_⟩
    intro id hid
    rw [List.map_cons] at hid
    rcases List.mem_cons.1 hid with hid | hid
    · subst hid
      exact (ih _).1 _ (suspendStep_sets now acc e)
    · exact (ih _).2 id hid

theorem suspendFold_snd (now : ℚ) (L : List (ℤ × ℚ)) :
    ∀ acc : BackgroundProcessManager × List ℤ,
      (L.foldl (suspendStep now) acc).2 = acc.2 ++ L.map Prod.fst := by
  induction L with
  | nil => simp
  | cons e t ih =>
    intro acc
    rw [List.foldl_cons, ih]
    simp [suspendStep]

theorem suspendFold_nodup (now : ℚ) (L : List (ℤ × ℚ)) :
    ∀ acc : BackgroundProcessManager × List ℤ,
      (acc.1.suspendedTimers.map Prod.fst).Nodup →
      (((L.foldl (suspendStep now) acc).1.suspendedTimers.map Prod.fst)).Nodup := by
  induction L with
  | nil => exact fun acc h => h
  | cons e t ih =>
    intro acc h
    rw [List.foldl_cons]
    exact ih _ (amSet_keys_nodup _ _ h)

theorem pause_clears_running (p : PrecisionTimer) :
    (PrecisionTimer.pause p).t.state.isRunning = false := by
  by_cases hr : p.state.isRunning <;> simp [PrecisionTimer.pause, hr]

/-- **C5** (amended).  A host suspend signal stores, for every registered
task id, exactly one suspension record (the suspension map keeps unique
keys) with reason `"System suspend"` — capital S, not the `"system suspend"`
of the claim — stamped with the suspend instant, and emits one suspend
notification listing exactly the registered ids; the renderer pauses the
global timer it delivers to when that timer is bound to a task.  The paired
resume signal removes exactly the records whose reason is `"System suspend"`,
emits a resume notification listing their task ids, and the renderer-side
resume handler never touches the timer (no auto-resume). -/
theorem claim_C5_suspend_resume_cycle (m : BackgroundProcessManager)
    (p : PrecisionTimer) (now nowR : ℚ) (tid : ℤ)
    (hnodup : (m.suspendedTimers.map Prod.fst).Nodup)
    (hreg : tid ∈ m.lastActivityTimes.map Prod.fst)
    (htask : p.state.taskId = some tid) :
    (∀ id ∈ m.lastActivityTimes.map Prod.fst,
      goodSuspendRecord now (BackgroundProcessManager.handleSystemSuspend now m).1 id) ∧
    (((BackgroundProcessManager.handleSystemSuspend now m).1.suspendedTimers.map
        Prod.fst).Nodup) ∧
    ((BackgroundProcessManager.handleSystemSuspend now m).2 =
      some { timestamp := now, suspendedTasks := m.lastActivityTimes.map Prod.fst }) ∧
    ((applySuspendNotification (BackgroundProcessManager.handleSystemSuspend now m).2
        p).state.isRunning = false) ∧
    ((BackgroundProcessManager.handleSystemResume nowR
        (BackgroundProcessManager.handleSystemSuspend now m).1).1.suspendedTimers =
      (BackgroundProcessManager.handleSystemSuspend now m).1.suspendedTimers.filter
        (fun e => e.2.reason ≠ "System suspend")) ∧
    ((BackgroundProcessManager.handleSystemResume nowR
        (BackgroundProcessManager.handleSystemSuspend now m).1).2 =
      some { timestamp := nowR,
             resumedTasks :=
               ((BackgroundProcessManager.handleSystemSuspend now m).1.suspendedTimers.filter
                 (fun e => e.2.reason = "System suspend")).map Prod.fst }) ∧
    (∀ q : PrecisionTimer,
      applyResumeNotification
        (BackgroundProcessManager.handleSystemResume nowR
          (BackgroundProcessManager.handleSystemSuspend now m).1).2 q = q) := by
  have hsnd : (m.lastActivityTimes.foldl (suspendStep now) (m, [])).2 =
      m.lastActivityTimes.map Prod.fst := by
    rw [suspendFold_snd]
    simp
  have hne2 : (m.lastActivityTimes.foldl (suspendStep now) (m, [])).2 ≠ [] := by
    rw [hsnd]
    intro hc
    rw [hc] at hreg
    cases hreg
  have hsusp : BackgroundProcessManager.handleSystemSuspend now m =
      ((m.lastActivityTimes.foldl (suspendStep now) (m, [])).1,
        some { timestamp := now, suspendedTasks := m.lastActivityTimes.map Prod.fst }) := by
    unfold BackgroundProcessManager.handleSystemSuspend
    dsimp only
    rw [if_neg hne2, hsnd]
  have hgood : ∀ id ∈ m.lastActivityTimes.map Prod.fst,
      goodSuspendRecord now (BackgroundProcessManager.handleSystemSuspend now m).1 id := by
    intro id hid
    rw [hsusp]
    exact (suspendFold_good now m.lastActivityTimes (m, [])).2 id hid
  have hM1nodup :
      (((BackgroundProcessManager.handleSystemSuspend now m).1.suspendedTimers.map
        Prod.fst)).Nodup := by
    rw [hsusp]
    exact suspendFold_nodup now m.lastActivityTimes (m, []) hnodup
  have hresumeList :
      ((BackgroundProcessManager.handleSystemSuspend now m).1.suspendedTimers.filter
        (fun e => e.2.reason = "System suspend")).map Prod.fst ≠ [] := by
    obtain ⟨r, hget, hreason, _⟩ := hgood tid hreg
    have hmem := amGet_mem hget
    have : (tid, r) ∈ (BackgroundProcessManager.handleSystemSuspend now m).1.suspendedTimers.filter
        (fun e => e.2.reason = "System suspend") := by
      rw [List.mem_filter]
      exact ⟨hmem, by simp [hreason]⟩
    intro hc
    rw [List.map_eq_nil_iff] at hc
    rw [hc] at this
    cases this
  refine ⟨hgood, hM1nodup, by rw [hsusp], ?_, ?_, ?_, fun q => rfl⟩
  · rw [hsusp]
    unfold applySuspendNotification
    rw [htask]
    exact pause_clears_running p
  · unfold BackgroundProcessManager.handleSystemResume
    dsimp only
    split <;> rfl
  · unfold BackgroundProcessManager.handleSystemResume
    dsimp only
    rw [if_neg hresumeList]

/-- Witness for **C5**: one registered task `1`, the global timer started on
it; the suspend at `t = 5` emits the notification for `[1]` and pauses the
timer, and the resume at `t = 9` lists task `1` without resuming. -/
theorem claim_C5_suspend_resume_cycle_witness :
    goodSuspendRecord 5
      (BackgroundProcessManager.handleSystemSuspend 5
        (BackgroundProcessManager.registerTimerActivity 1 0 .init)).1 1 ∧
    (BackgroundProcessManager.handleSystemSuspend 5
        (BackgroundProcessManager.registerTimerActivity 1 0 .init)).2 =
      some { timestamp := 5, suspendedTasks := [1] } ∧
    (applySuspendNotification
        (BackgroundProcessManager.handleSystemSuspend 5
          (BackgroundProcessManager.registerTimerActivity 1 0 .init)).2
        (PrecisionTimer.start 1 0 0 .init).t).state.isRunning = false :=
  ⟨(claim_C5_suspend_resume_cycle
      (BackgroundProcessManager.registerTimerActivity 1 0 .init)
      (PrecisionTimer.start 1 0 0 .init).t 5 9 1
      (by with_unfolding_all decide) (by with_unfolding_all decide)
      (by with_unfolding_all rfl)).1 1 (by with_unfolding_all decide),
    (claim_C5_suspend_resume_cycle
      (BackgroundProcessManager.registerTimerActivity 1 0 .init)
      (PrecisionTimer.start 1 0 0 .init).t 5 9 1
      (by with_unfolding_all decide) (by with_unfolding_all decide)
      (by with_unfolding_all rfl)).2.2.1,
    (claim_C5_suspend_resume_cycle
      (BackgroundProcessManager.registerTimerActivity 1 0 .init)
      (PrecisionTimer.start 1 0 0 .init).t 5 9 1
      (by with_unfolding_all decide) (by with_unfolding_all decide)
      (by with_unfolding_all rfl)).2.2.2.1⟩

/-- Counterexample to **C5** as stated: the reason string stored by the code
is `"System suspend"` (capital S), so no record carries the claimed reason
`"system suspend"`. -/
theorem claim_C5_suspend_resume_cycle_counterexample :
    (amGet 1 (BackgroundProcessManager.handleSystemSuspend 5
        (BackgroundProcessManager.registerTimerActivity 1 0 .init)).1.suspendedTimers).map
      SuspendedTimerRecord.reason = some "System suspend" ∧
    ¬((amGet 1 (BackgroundProcessManager.handleSystemSuspend 5
        (BackgroundProcessManager.registerTimerActivity 1 0 .init)).1.suspendedTimers).map
      SuspendedTimerRecord.reason = some "system suspend") :=
  ⟨by with_unfolding_all rfl, by with_unfolding_all decide⟩

/-- **C6** (code bug).  With task `1` registered and suspended by the host
signal (record identity `rid = 0`), a suggestion scan under very recent
system activity (idle `0 s < 5 min`) creates the pending suggestion keyed by
the *record object*, not by task id `1`: the lookup under key `1` — the one
`unregisterTimerActivity` and `generateResumeReason` perform — finds
nothing.  A second scan adds nothing (the object key is already present). -/
theorem claim_C6_suggestion_keyed_by_record :
    amGet (SuggestionKey.num 1)
      (BackgroundProcessManager.generateResumeSuggestions 0
        (BackgroundProcessManager.handleSystemSuspend 10
          (BackgroundProcessManager.registerTimerActivity 1 0 .init)).1).pendingResumeSuggestions
      = none ∧
    (BackgroundProcessManager.generateResumeSuggestions 0
        (BackgroundProcessManager.handleSystemSuspend 10
          (BackgroundProcessManager.registerTimerActivity 1 0 .init)).1).pendingResumeSuggestions
      = [(SuggestionKey.obj 0, "System activity detected after timer suspension")] ∧
    BackgroundProcessManager.generateResumeSuggestions 0
        (BackgroundProcessManager.generateResumeSuggestions 0
          (BackgroundProcessManager.handleSystemSuspend 10
            (BackgroundProcessManager.registerTimerActivity 1 0 .init)).1) =
      BackgroundProcessManager.generateResumeSuggestions 0
        (BackgroundProcessManager.handleSystemSuspend 10
          (BackgroundProcessManager.registerTimerActivity 1 0 .init)).1 :=
  ⟨by with_unfolding_all rfl, by with_unfolding_all rfl, by with_unfolding_all rfl⟩

/-! ## Evaluation checks against the repository test suite -/

example : parseTime "01:01:01" = .ok 3661 := by with_unfolding_all rfl
example : parseTime "1:2:3" = .ok 3723 := by with_unfolding_all rfl
example : parseTime "" = .error .invalidStringFormat := by with_unfolding_all rfl
example : parseTime "aa:bb:cc" = .error .invalidValues := by with_unfolding_all rfl
example : parseTime "01:60:00" = .error .invalidRange := by with_unfolding_all rfl
example : parseTime "::" = .ok 0 := by with_unfolding_all rfl
example : parseTime "0:0:1.5" = .ok (3/2) := by with_unfolding_all rfl
example : formatTime 3661 = "01:01:01" := by with_unfolding_all rfl
example : formatTime (3/2) = "00:00:1.5" := by with_unfolding_all rfl
example : formatTime 0 = "00:00:00" := by with_unfolding_all rfl
example : formatTime 90061 = "25:01:01" := by with_unfolding_all rfl
example : parseTime "24:00:00" = .ok 86400 := by with_unfolding_all rfl

section TimerExamples
open PrecisionTimer

example : getTotalSeconds 46000 (start 1 120 1000 .init).t = 165 := by
  with_unfolding_all rfl
example : (stop 31000 (start 1 60 1000 .init).t).seconds = 90 := by
  with_unfolding_all rfl
example : (pause (start 1 60 1000 .init).t).seconds = 60 := by
  with_unfolding_all rfl
example :
    getTotalSeconds 45000 (updateTimer 45000 (start 1 120 0 .init).t).1 = 90 := by
  with_unfolding_all rfl

end TimerExamples

end TaskMgmt
